import Mathlib

/-!
Verification of the AArch32 VFP translator (target/arm/translate-vfp.inc.c).

This file shallowly embeds the register-addressing helpers, the generic
2-operand/3-operand short-vector emission templates, the fused multiply-add
emission, the rounding-mode save/restore discipline, the M-profile FP
system-register access framework, the VLDM/VSTM block-transfer handlers and
the VMSR/VMRS handler, and proves (or refutes) the specified properties of
each.  Machine integers are modelled as `Nat`/`Int` with explicit reduction
modulo 2^32 where 32-bit wraparound matters.
-/

/-! ## Register addressing (translate-vfp.inc.c lines 1670-1700)

The C helpers operate on `int` register indices with two's-complement
bitwise arithmetic.  Register numbers are always small and non-negative
(`0..31`), the advance delta may be negative, so we model `reg : Nat` and
`delta : Int`.  For a two's-complement integer `x`, `x & 0x7` equals the
non-negative remainder `x % 8` (`Int.emod`), and for a non-negative `reg`,
`reg & ~0x7` equals `8 * (reg / 8)`; the two or-ed operands have disjoint
bits so `|` is `+`. -/

/-- `vfp_sreg_is_scalar`: true if the S reg is in a scalar bank (s0..s7),
i.e. `(reg & 0x18) == 0`. -/
def vfp_sreg_is_scalar (reg : Nat) : Bool :=
  reg &&& 0x18 == 0

/-- `vfp_dreg_is_scalar`: true if the D reg is in a scalar bank
(d0..d3 or d16..d19), i.e. `(reg & 0xc) == 0`. -/
def vfp_dreg_is_scalar (reg : Nat) : Bool :=
  reg &&& 0xc == 0

/-- `vfp_advance_sreg`: advance the S reg number forwards by delta within its
bank: `((reg + delta) & 0x7) | (reg & ~0x7)`. -/
def vfp_advance_sreg (reg : Nat) (delta : Int) : Nat :=
  (((reg : Int) + delta) % 8).toNat + 8 * (reg / 8)

/-- `vfp_advance_dreg`: advance the D reg number forwards by delta within its
bank: `((reg + delta) & 0x3) | (reg & ~0x3)`. -/
def vfp_advance_dreg (reg : Nat) (delta : Int) : Nat :=
  (((reg : Int) + delta) % 4).toNat + 4 * (reg / 4)

/-- C8: advancing and then advancing back cancels, and each advance touches
only the position-within-bank bits (low 3 bits for single precision, low 2
bits for double precision), leaving the bank-selecting high bits unchanged. -/
theorem c8_advance_roundtrip_and_bank_preserving (reg : Nat) (d : Int) :
    vfp_advance_sreg (vfp_advance_sreg reg d) (-d) = reg ∧
    vfp_advance_dreg (vfp_advance_dreg reg d) (-d) = reg ∧
    vfp_advance_sreg reg d / 8 = reg / 8 ∧
    vfp_advance_sreg reg d % 8 = (((reg : Int) + d) % 8).toNat ∧
    vfp_advance_dreg reg d / 4 = reg / 4 ∧
    vfp_advance_dreg reg d % 4 = (((reg : Int) + d) % 4).toNat := by
  unfold vfp_advance_sreg vfp_advance_dreg
  omega

/-! ## Generic 3-operand template, single precision (do_vfp_3op_sp, lines 1707-1784)

We embed the short-vector looping of `do_vfp_3op_sp` as the trace of
register indices it touches: one entry `(vd, vn, vm)` per emitted operation,
where `vd` is the register stored and `vn`/`vm` are the registers whose
values feed the callback in that iteration.  The loop body runs, then
`veclen` is tested: zero breaks, otherwise it is decremented and
`vd`/`vn` are advanced by `delta_d` (with `vm` advanced by `delta_m` and
reloaded only when `delta_m` is non-zero). -/

/-- The `for (;;)` loop of `do_vfp_3op_sp`, as the list of
(destination, first-source, second-source) register triples of each
iteration. -/
def do_vfp_3op_sp_loop (veclen : Nat) (delta_d delta_m : Nat)
    (vd vn vm : Nat) : List (Nat × Nat × Nat) :=
  (vd, vn, vm) ::
    match veclen with
    | 0 => []
    | v + 1 =>
      do_vfp_3op_sp_loop v delta_d delta_m
        (vfp_advance_sreg vd delta_d)
        (vfp_advance_sreg vn delta_d)
        (if delta_m ≠ 0 then vfp_advance_sreg vm delta_m else vm)

/-- `do_vfp_3op_sp` after its access checks: the delta computation from
`s->vec_len` / `s->vec_stride` (`veclen` is zeroed for a scalar destination,
`delta_m` is zeroed for a scalar second source) followed by the emission
loop. -/
def do_vfp_3op_sp_trace (vec_len vec_stride : Nat)
    (vd vn vm : Nat) : List (Nat × Nat × Nat) :=
  if vec_len > 0 then
    if vfp_sreg_is_scalar vd then
      do_vfp_3op_sp_loop 0 0 0 vd vn vm
    else
      if vfp_sreg_is_scalar vm then
        do_vfp_3op_sp_loop vec_len (vec_stride + 1) 0 vd vn vm
      else
        do_vfp_3op_sp_loop vec_len (vec_stride + 1) (vec_stride + 1) vd vn vm
  else
    do_vfp_3op_sp_loop vec_len 0 0 vd vn vm

theorem do_vfp_3op_sp_loop_length (veclen delta_d delta_m vd vn vm : Nat) :
    (do_vfp_3op_sp_loop veclen delta_d delta_m vd vn vm).length = veclen + 1 := by
  induction veclen generalizing vd vn vm with
  | zero => rfl
  | succ v ih => simp [do_vfp_3op_sp_loop, ih]

theorem do_vfp_3op_sp_loop_get_zero (veclen delta_d delta_m vd vn vm : Nat)
    (h : 0 < (do_vfp_3op_sp_loop veclen delta_d delta_m vd vn vm).length) :
    (do_vfp_3op_sp_loop veclen delta_d delta_m vd vn vm).get ⟨0, h⟩ =
      (vd, vn, vm) := by
  cases veclen <;> rfl

theorem do_vfp_3op_sp_loop_get_succ (veclen delta_d delta_m vd vn vm i : Nat)
    (h : i + 1 < (do_vfp_3op_sp_loop veclen delta_d delta_m vd vn vm).length)
    (h' : i < (do_vfp_3op_sp_loop veclen delta_d delta_m vd vn vm).length) :
    (do_vfp_3op_sp_loop veclen delta_d delta_m vd vn vm).get ⟨i + 1, h⟩ =
      (fun t : Nat × Nat × Nat =>
        (vfp_advance_sreg t.1 delta_d, vfp_advance_sreg t.2.1 delta_d,
         if delta_m ≠ 0 then vfp_advance_sreg t.2.2 delta_m else t.2.2))
        ((do_vfp_3op_sp_loop veclen delta_d delta_m vd vn vm).get ⟨i, h'⟩) := by
  induction i generalizing veclen vd vn vm with
  | zero =>
    match veclen with
    | 0 => rw [do_vfp_3op_sp_loop_length] at h; omega
    | v + 1 =>
      have hh : 0 < (do_vfp_3op_sp_loop v delta_d delta_m
          (vfp_advance_sreg vd delta_d) (vfp_advance_sreg vn delta_d)
          (if delta_m ≠ 0 then vfp_advance_sreg vm delta_m else vm)).length := by
        rw [do_vfp_3op_sp_loop_length]; omega
      calc (do_vfp_3op_sp_loop (v + 1) delta_d delta_m vd vn vm).get ⟨1, h⟩
          = (do_vfp_3op_sp_loop v delta_d delta_m
              (vfp_advance_sreg vd delta_d) (vfp_advance_sreg vn delta_d)
              (if delta_m ≠ 0 then vfp_advance_sreg vm delta_m else vm)).get
              ⟨0, hh⟩ := rfl
        _ = (vfp_advance_sreg vd delta_d, vfp_advance_sreg vn delta_d,
              if delta_m ≠ 0 then vfp_advance_sreg vm delta_m else vm) :=
            do_vfp_3op_sp_loop_get_zero ..
        _ = _ := by
            rw [do_vfp_3op_sp_loop_get_zero]
  | succ j ih =>
    match veclen with
    | 0 => rw [do_vfp_3op_sp_loop_length] at h; omega
    | v + 1 =>
      have h2 : j + 1 < (do_vfp_3op_sp_loop v delta_d delta_m
          (vfp_advance_sreg vd delta_d) (vfp_advance_sreg vn delta_d)
          (if delta_m ≠ 0 then vfp_advance_sreg vm delta_m else vm)).length := by
        rw [do_vfp_3op_sp_loop_length]
        rw [do_vfp_3op_sp_loop_length] at h
        omega
      have h3 : j < (do_vfp_3op_sp_loop v delta_d delta_m
          (vfp_advance_sreg vd delta_d) (vfp_advance_sreg vn delta_d)
          (if delta_m ≠ 0 then vfp_advance_sreg vm delta_m else vm)).length := by
        omega
      calc (do_vfp_3op_sp_loop (v + 1) delta_d delta_m vd vn vm).get ⟨j + 2, h⟩
          = (do_vfp_3op_sp_loop v delta_d delta_m
              (vfp_advance_sreg vd delta_d) (vfp_advance_sreg vn delta_d)
              (if delta_m ≠ 0 then vfp_advance_sreg vm delta_m else vm)).get
              ⟨j + 1, h2⟩ := rfl
        _ = _ := by
            rw [ih v _ _ _ h2 h3]
            rfl

/-- C2: the 3-operand single-precision template emits exactly once when the
configured vector length is zero or the destination is in a scalar bank
(s0..s7), and otherwise emits `vec_len + 1` times, advancing destination and
first source by `vec_stride + 1` positions each iteration, and the second
source by the same amount unless it is itself in a scalar bank, in which
case it is reused unchanged in every iteration. -/
theorem c2_vfp_3op_sp_looping (vec_len vec_stride vd vn vm : Nat) :
    ((vec_len = 0 ∨ vfp_sreg_is_scalar vd) →
      (do_vfp_3op_sp_trace vec_len vec_stride vd vn vm).length = 1) ∧
    (¬(vec_len = 0 ∨ vfp_sreg_is_scalar vd) →
      (do_vfp_3op_sp_trace vec_len vec_stride vd vn vm).length = vec_len + 1) ∧
    (∀ i (h : i + 1 < (do_vfp_3op_sp_trace vec_len vec_stride vd vn vm).length)
       (h' : i < (do_vfp_3op_sp_trace vec_len vec_stride vd vn vm).length),
      ((do_vfp_3op_sp_trace vec_len vec_stride vd vn vm).get ⟨i + 1, h⟩).1 =
        vfp_advance_sreg
          (((do_vfp_3op_sp_trace vec_len vec_stride vd vn vm).get ⟨i, h'⟩).1)
          (vec_stride + 1) ∧
      ((do_vfp_3op_sp_trace vec_len vec_stride vd vn vm).get ⟨i + 1, h⟩).2.1 =
        vfp_advance_sreg
          (((do_vfp_3op_sp_trace vec_len vec_stride vd vn vm).get ⟨i, h'⟩).2.1)
          (vec_stride + 1) ∧
      ((do_vfp_3op_sp_trace vec_len vec_stride vd vn vm).get ⟨i + 1, h⟩).2.2 =
        (if vfp_sreg_is_scalar vm then
          ((do_vfp_3op_sp_trace vec_len vec_stride vd vn vm).get ⟨i, h'⟩).2.2
         else
          vfp_advance_sreg
            (((do_vfp_3op_sp_trace vec_len vec_stride vd vn vm).get ⟨i, h'⟩).2.2)
            (vec_stride + 1))) := by
  refine ⟨?_, ?_, ?_⟩
  · intro hs
    unfold do_vfp_3op_sp_trace
    rcases hs with hz | hsc
    · subst hz; simp [do_vfp_3op_sp_loop_length]
    · rcases Nat.eq_zero_or_pos vec_len with hz | hp
      · subst hz; simp [do_vfp_3op_sp_loop_length]
      · simp [hp, hsc, do_vfp_3op_sp_loop_length]
  · intro hs
    push_neg at hs
    obtain ⟨hz, hsc⟩ := hs
    unfold do_vfp_3op_sp_trace
    have hp : vec_len > 0 := Nat.pos_of_ne_zero hz
    by_cases hm : vfp_sreg_is_scalar vm <;>
      simp [hp, hsc, hm, do_vfp_3op_sp_loop_length]
  · rcases Nat.eq_zero_or_pos vec_len with hz | hp
    · intro i h h'
      subst hz
      unfold do_vfp_3op_sp_trace at h
      simp [do_vfp_3op_sp_loop_length] at h
    · by_cases hsc : vfp_sreg_is_scalar vd
      · intro i h h'
        unfold do_vfp_3op_sp_trace at h
        simp [hp, hsc, do_vfp_3op_sp_loop_length] at h
      · by_cases hm : vfp_sreg_is_scalar vm
        · have hrw : do_vfp_3op_sp_trace vec_len vec_stride vd vn vm =
              do_vfp_3op_sp_loop vec_len (vec_stride + 1) 0 vd vn vm := by
            unfold do_vfp_3op_sp_trace
            simp [hp, hsc, hm]
          rw [hrw]
          intro i h h'
          rw [do_vfp_3op_sp_loop_get_succ vec_len (vec_stride + 1) 0
            vd vn vm i h h']
          simp [hm]
        · have hrw : do_vfp_3op_sp_trace vec_len vec_stride vd vn vm =
              do_vfp_3op_sp_loop vec_len (vec_stride + 1) (vec_stride + 1)
                vd vn vm := by
            unfold do_vfp_3op_sp_trace
            simp [hp, hsc, hm]
          rw [hrw]
          intro i h h'
          rw [do_vfp_3op_sp_loop_get_succ vec_len (vec_stride + 1)
            (vec_stride + 1) vd vn vm i h h']
          simp [hm]

/-- Witness for C2 at `vec_len = 3`, `vec_stride = 0`, `vd = 8`, `vn = 16`,
`vm = 24` (all outside the scalar bank): four iterations, and the second
iteration advances every register index by one position from the first. -/
theorem c2_vfp_3op_sp_looping_witness :
    (¬((3 : Nat) = 0 ∨ vfp_sreg_is_scalar 8)) ∧
    (do_vfp_3op_sp_trace 3 0 8 16 24).length = 3 + 1 ∧
    ((do_vfp_3op_sp_trace 3 0 8 16 24).get ⟨0 + 1, by decide⟩).1 =
      vfp_advance_sreg (((do_vfp_3op_sp_trace 3 0 8 16 24).get ⟨0, by decide⟩).1)
        ((0 : Nat) + 1) := by
  refine ⟨by decide, (c2_vfp_3op_sp_looping 3 0 8 16 24).2.1 (by decide), ?_⟩
  exact ((c2_vfp_3op_sp_looping 3 0 8 16 24).2.2 0 (by decide) (by decide)).1

/-! ## Generic 2-operand templates (do_vfp_2op_sp lines 1918-1990,
do_vfp_2op_dp lines 2025-2102)

Again traces of `(destination stored, source whose loaded value produced the
stored result)` pairs, one per register store.  The single-precision loop
advances `vd` by `delta_d` and `vm` by `delta_m` between iterations; in the
double-precision loop the source lines read

    vd = vfp_advance_dreg(vd, delta_d);
    vd = vfp_advance_dreg(vm, delta_m);
    vfp_load_reg64(s, f0, vm);

(the second assignment overwrites `vd` with an advance of `vm` and `vm`
itself is never advanced); the embedding reproduces this with a shadowing
`let`, exactly as written. -/

/-- The `single source one-many` inner `while (veclen--)` loop shared by
both 2-operand templates (parameterised by the advance function): the
already-computed result is re-stored to successive destinations. -/
def do_vfp_2op_one_many (advance : Nat → Int → Nat) (count : Nat)
    (delta_d : Nat) (vd vm : Nat) : List (Nat × Nat) :=
  match count with
  | 0 => []
  | c + 1 =>
    let vd := advance vd delta_d
    (vd, vm) :: do_vfp_2op_one_many advance c delta_d vd vm

/-- The `for (;;)` loop of `do_vfp_2op_sp`. -/
def do_vfp_2op_sp_loop (veclen : Nat) (delta_d delta_m : Nat)
    (vd vm : Nat) : List (Nat × Nat) :=
  (vd, vm) ::
    match veclen with
    | 0 => []
    | v + 1 =>
      if delta_m = 0 then
        do_vfp_2op_one_many vfp_advance_sreg (v + 1) delta_d vd vm
      else
        do_vfp_2op_sp_loop v delta_d delta_m
          (vfp_advance_sreg vd delta_d) (vfp_advance_sreg vm delta_m)

set_option linter.unusedVariables false in
/-- The `for (;;)` loop of `do_vfp_2op_dp`, reproducing the double
assignment to `vd` of the source verbatim (the first assignment is a dead
store in the source, hence the linter option). -/
def do_vfp_2op_dp_loop (veclen : Nat) (delta_d delta_m : Nat)
    (vd vm : Nat) : List (Nat × Nat) :=
  (vd, vm) ::
    match veclen with
    | 0 => []
    | v + 1 =>
      if delta_m = 0 then
        do_vfp_2op_one_many vfp_advance_dreg (v + 1) delta_d vd vm
      else
        let vd := vfp_advance_dreg vd delta_d
        let vd := vfp_advance_dreg vm delta_m
        do_vfp_2op_dp_loop v delta_d delta_m vd vm

/-- `do_vfp_2op_sp` after its access checks: delta computation and loop. -/
def do_vfp_2op_sp_trace (vec_len vec_stride : Nat)
    (vd vm : Nat) : List (Nat × Nat) :=
  if vec_len > 0 then
    if vfp_sreg_is_scalar vd then
      do_vfp_2op_sp_loop 0 0 0 vd vm
    else
      if vfp_sreg_is_scalar vm then
        do_vfp_2op_sp_loop vec_len (vec_stride + 1) 0 vd vm
      else
        do_vfp_2op_sp_loop vec_len (vec_stride + 1) (vec_stride + 1) vd vm
  else
    do_vfp_2op_sp_loop vec_len 0 0 vd vm

/-- `do_vfp_2op_dp` after its access checks: delta computation
(`delta_d = (s->vec_stride >> 1) + 1` for double precision) and loop. -/
def do_vfp_2op_dp_trace (vec_len vec_stride : Nat)
    (vd vm : Nat) : List (Nat × Nat) :=
  if vec_len > 0 then
    if vfp_dreg_is_scalar vd then
      do_vfp_2op_dp_loop 0 0 0 vd vm
    else
      if vfp_dreg_is_scalar vm then
        do_vfp_2op_dp_loop vec_len ((vec_stride >>> 1) + 1) 0 vd vm
      else
        do_vfp_2op_dp_loop vec_len ((vec_stride >>> 1) + 1)
          ((vec_stride >>> 1) + 1) vd vm
  else
    do_vfp_2op_dp_loop vec_len 0 0 vd vm

/-- C1 (code bug): under short-vector looping with a non-scalar destination
and non-scalar source, the single-precision 2-operand template advances the
destination from its own previous value by `delta_d` and the source by
`delta_m`, but the double-precision template does not: at
`vec_len = 1`, `vec_stride = 0`, `vd = d4`, `vm = d8` (both non-scalar,
`delta_d = delta_m = 1`) its second iteration stores to `d9` — the advance
of the *source* register — and re-reads the un-advanced source `d8`,
whereas the single-precision template (here at the non-scalar S regs
`vd = s8`, `vm = s16`) stores to the advance of the previous destination and
reads the advanced source. -/
theorem c1_vfp_2op_dp_advance_slip :
    do_vfp_2op_dp_trace 1 0 4 8 = [(4, 8), (9, 8)] ∧
    do_vfp_2op_sp_trace 1 0 8 16 =
      [(8, 16), (vfp_advance_sreg 8 1, vfp_advance_sreg 16 1)] ∧
    (9, 8) ≠ (vfp_advance_dreg 4 1, vfp_advance_dreg 8 1) := by
  refine ⟨by decide, by decide, by decide⟩

/-! ## Fused multiply-add family (do_vfm_hp/sp/dp lines 2473-2671,
MAKE_VFM_TRANS_FNS lines 2673-2688)

The emitted value computation is captured as a syntax tree over the loaded
register values: `FExpr.neg` is the explicit separate negate helper call
(`gen_helper_vfp_neg{h,s,d}`) and `FExpr.muladd a b c` is the fused
multiply-add library call (`gen_helper_vfp_muladd{h,s,d}`), whose first two
arguments are the multiplicands and whose third argument is the accumulator
(per the arithmetic library's `muladd(a, b, c) = a*b + c` interface).
Because the tree is free syntax, `muladd (neg x) y z` is distinct from any
algebraically rearranged form, so the theorems state exactly which operands
carry an explicit pre-negation. -/

/-- Symbolic value computed by an emitted floating-point op sequence. -/
inductive FExpr where
  | reg (n : Nat)
  | neg (e : FExpr)
  | muladd (a b c : FExpr)
deriving DecidableEq, Repr

/-- The body of `do_vfm_sp` after its access checks: load `vn` and `vm`,
negate `vn` if `neg_n` (VFNMS, VFMS), load `vd`, negate `vd` if `neg_d`
(VFNMA, VFNMS), call `muladd` with `vn`, `vm`, `vd`, store to `a->vd`.
Returns the expression stored and the destination register. -/
def do_vfm_sp_emit (vd_r vn_r vm_r : Nat) (neg_n neg_d : Bool) : FExpr × Nat :=
  let vn := FExpr.reg vn_r
  let vm := FExpr.reg vm_r
  let vn := if neg_n then FExpr.neg vn else vn
  let vd := FExpr.reg vd_r
  let vd := if neg_d then FExpr.neg vd else vd
  (FExpr.muladd vn vm vd, vd_r)

/-- The body of `do_vfm_hp` (identical structure, half precision). -/
def do_vfm_hp_emit (vd_r vn_r vm_r : Nat) (neg_n neg_d : Bool) : FExpr × Nat :=
  let vn := FExpr.reg vn_r
  let vm := FExpr.reg vm_r
  let vn := if neg_n then FExpr.neg vn else vn
  let vd := FExpr.reg vd_r
  let vd := if neg_d then FExpr.neg vd else vd
  (FExpr.muladd vn vm vd, vd_r)

/-- The body of `do_vfm_dp` (identical structure, double precision). -/
def do_vfm_dp_emit (vd_r vn_r vm_r : Nat) (neg_n neg_d : Bool) : FExpr × Nat :=
  let vn := FExpr.reg vn_r
  let vm := FExpr.reg vm_r
  let vn := if neg_n then FExpr.neg vn else vn
  let vd := FExpr.reg vd_r
  let vd := if neg_d then FExpr.neg vd else vd
  (FExpr.muladd vn vm vd, vd_r)

/-- The `MAKE_VFM_TRANS_FNS` flag table: `(neg_n, neg_d)` for VFMA, VFMS,
VFNMA, VFNMS respectively. -/
def trans_VFMA_flags : Bool × Bool := (false, false)

def trans_VFMS_flags : Bool × Bool := (true, false)

def trans_VFNMA_flags : Bool × Bool := (false, true)

def trans_VFNMS_flags : Bool × Bool := (true, true)

/-- C3: for each fused multiply-add variant in each precision, the required
negations appear as explicit `neg` nodes applied before the fused call
(VFMS negates the first multiplicand, VFNMA the accumulator, VFNMS both),
and the fused call receives the two non-accumulator operands `vn`, `vm` as
multiplicands and the possibly-pre-negated destination as accumulator, the
result being stored back to the destination register. -/
theorem c3_vfm_negate_then_fuse (vd vn vm : Nat) :
    (do_vfm_sp_emit vd vn vm trans_VFMA_flags.1 trans_VFMA_flags.2 =
      (FExpr.muladd (.reg vn) (.reg vm) (.reg vd), vd) ∧
     do_vfm_sp_emit vd vn vm trans_VFMS_flags.1 trans_VFMS_flags.2 =
      (FExpr.muladd (.neg (.reg vn)) (.reg vm) (.reg vd), vd) ∧
     do_vfm_sp_emit vd vn vm trans_VFNMA_flags.1 trans_VFNMA_flags.2 =
      (FExpr.muladd (.reg vn) (.reg vm) (.neg (.reg vd)), vd) ∧
     do_vfm_sp_emit vd vn vm trans_VFNMS_flags.1 trans_VFNMS_flags.2 =
      (FExpr.muladd (.neg (.reg vn)) (.reg vm) (.neg (.reg vd)), vd)) ∧
    (do_vfm_hp_emit vd vn vm trans_VFMA_flags.1 trans_VFMA_flags.2 =
      (FExpr.muladd (.reg vn) (.reg vm) (.reg vd), vd) ∧
     do_vfm_hp_emit vd vn vm trans_VFMS_flags.1 trans_VFMS_flags.2 =
      (FExpr.muladd (.neg (.reg vn)) (.reg vm) (.reg vd), vd) ∧
     do_vfm_hp_emit vd vn vm trans_VFNMA_flags.1 trans_VFNMA_flags.2 =
      (FExpr.muladd (.reg vn) (.reg vm) (.neg (.reg vd)), vd) ∧
     do_vfm_hp_emit vd vn vm trans_VFNMS_flags.1 trans_VFNMS_flags.2 =
      (FExpr.muladd (.neg (.reg vn)) (.reg vm) (.neg (.reg vd)), vd)) ∧
    (do_vfm_dp_emit vd vn vm trans_VFMA_flags.1 trans_VFMA_flags.2 =
      (FExpr.muladd (.reg vn) (.reg vm) (.reg vd), vd) ∧
     do_vfm_dp_emit vd vn vm trans_VFMS_flags.1 trans_VFMS_flags.2 =
      (FExpr.muladd (.neg (.reg vn)) (.reg vm) (.reg vd), vd) ∧
     do_vfm_dp_emit vd vn vm trans_VFNMA_flags.1 trans_VFNMA_flags.2 =
      (FExpr.muladd (.reg vn) (.reg vm) (.neg (.reg vd)), vd) ∧
     do_vfm_dp_emit vd vn vm trans_VFNMS_flags.1 trans_VFNMS_flags.2 =
      (FExpr.muladd (.neg (.reg vn)) (.reg vm) (.neg (.reg vd)), vd)) := by
  exact ⟨⟨rfl, rfl, rfl, rfl⟩, ⟨rfl, rfl, rfl, rfl⟩, ⟨rfl, rfl, rfl, rfl⟩⟩

/-! ## Rounding-mode save/restore (trans_VRINT lines 355-430, trans_VCVT
lines 432-525, trans_VRINTZ_hp/sp/dp lines 3200-3294)

Each of these installs an instruction-specific rounding mode in the
ambient floating-point status (the same status object is used by both
`gen_helper_set_rmode` calls of one instruction), runs the operation, and
re-runs `set_rmode` on the temp that received the previous mode. -/

/-- Modelled from the spec: the arithmetic library's set-rounding-mode entry
point (`gen_helper_set_rmode`, defined outside this file in the arithmetic
helpers): per the spec's "read current rounding mode, install the
instruction-specific mode ... then restore the previous mode" discipline it
installs its argument as the ambient mode of the given status and returns
the previous ambient mode (which the emitted code writes back into the
argument temporary). -/
def set_rmode (new ambient : Nat) : Nat × Nat := (ambient, new)

/-- `FPROUNDING_*` constants (target/arm enumeration, defined outside this
file; the values only need to be the repository's). -/
def FPROUNDING_TIEEVEN : Nat := 0

def FPROUNDING_POSINF : Nat := 1

def FPROUNDING_NEGINF : Nat := 2

def FPROUNDING_ZERO : Nat := 3

def FPROUNDING_TIEAWAY : Nat := 4

/-- Modelled from the spec: the arithmetic library's round-to-zero mode
constant (`float_round_to_zero`); its concrete value never matters below. -/
def float_round_to_zero : Nat := 3

/-- `fp_decode_rm[]` (lines 348-353): common AArch32 encoding of rounding
mode, in `arm_fprounding` order. -/
def fp_decode_rm : Fin 4 → Nat
  | 0 => FPROUNDING_TIEAWAY
  | 1 => FPROUNDING_TIEEVEN
  | 2 => FPROUNDING_POSINF
  | 3 => FPROUNDING_NEGINF

/-- Ambient-rounding-mode effect of the code emitted by `trans_VRINT`:
`tcg_rmode = tcg_const_i32(arm_rmode_to_sf(rounding))`, a first
`set_rmode` swapping it with the ambient mode, the rint operation (which
does not change the mode), then a second `set_rmode` on the same temp.
`rmode_to_sf` abstracts the external `arm_rmode_to_sf` translation. -/
def trans_VRINT_ambient (rmode_to_sf : Nat → Nat) (rm : Fin 4)
    (ambient : Nat) : Nat :=
  let rounding := fp_decode_rm rm
  let tcg_rmode := rmode_to_sf rounding
  let (tcg_rmode, ambient) := set_rmode tcg_rmode ambient
  let (_, ambient) := set_rmode tcg_rmode ambient
  ambient

/-- Ambient-rounding-mode effect of the code emitted by `trans_VCVT`
(rounding-mode-overriding conversion): identical pairing around the
conversion helper. -/
def trans_VCVT_ambient (rmode_to_sf : Nat → Nat) (rm : Fin 4)
    (ambient : Nat) : Nat :=
  let rounding := fp_decode_rm rm
  let tcg_rmode := rmode_to_sf rounding
  let (tcg_rmode, ambient) := set_rmode tcg_rmode ambient
  let (_, ambient) := set_rmode tcg_rmode ambient
  ambient

/-- Ambient-rounding-mode effect of the code emitted by `trans_VRINTZ_sp`
(and the structurally identical `trans_VRINTZ_hp` / `trans_VRINTZ_dp`):
`tcg_rmode = tcg_const_i32(float_round_to_zero)` with the same pairing. -/
def trans_VRINTZ_ambient (ambient : Nat) : Nat :=
  let tcg_rmode := float_round_to_zero
  let (tcg_rmode, ambient) := set_rmode tcg_rmode ambient
  let (_, ambient) := set_rmode tcg_rmode ambient
  ambient

/-- C4: for VRINT and VCVT with any of the four explicit rounding-mode
encodings, and for VRINTZ, the ambient rounding mode after the emitted
sequence equals the ambient mode before it, whatever the external
mode-translation function yields. -/
theorem c4_rounding_mode_restored (rmode_to_sf : Nat → Nat) (rm : Fin 4)
    (ambient : Nat) :
    trans_VRINT_ambient rmode_to_sf rm ambient = ambient ∧
    trans_VCVT_ambient rmode_to_sf rm ambient = ambient ∧
    trans_VRINTZ_ambient ambient = ambient := by
  exact ⟨rfl, rfl, rfl⟩

/-! ## M-profile FP system-register access framework
(fp_sysreg_checks lines 661-699, gen_branch_fpInactive lines 701-730,
gen_M_fp_sysreg_write lines 732-807, gen_M_fp_sysreg_read lines 809-930)

The emitted IR is embedded as a list of micro-ops over a machine state
(three v7M cpu fields, the FPSCR, the value sink/source abstraction, and a
temporary file), with forward branches to labels exactly as the generators
emit them.  `interp` executes such a list; with `sinkFaults = true` the
store-to-sink op aborts execution (modelling a faulting memory sink). -/

/-- Register-selector constants.  `ARM_VFP_*` / `QEMU_VFP_FPSCR_NZCV` are
defined by the including translator outside this file; the values are the
repository's. -/
def ARM_VFP_FPSID : Nat := 0

def ARM_VFP_FPSCR : Nat := 1

def ARM_VFP_FPSCR_NZCVQC : Nat := 2

def ARM_VFP_MVFR2 : Nat := 5

def ARM_VFP_MVFR1 : Nat := 6

def ARM_VFP_MVFR0 : Nat := 7

def ARM_VFP_FPEXC : Nat := 8

def ARM_VFP_FPINST : Nat := 9

def ARM_VFP_FPINST2 : Nat := 10

def ARM_VFP_FPCXT_S : Nat := 14

def ARM_VFP_FPCXT_NS : Nat := 15

def QEMU_VFP_FPSCR_NZCV : Nat := 0xffff

/-- v7M register-field masks (cpu.h, outside this file): FPCCR.ASPEN is bit
31, CONTROL.FPCA bit 2, CONTROL.SFPA bit 3, FPSCR NZCV bits 31..28. -/
def R_V7M_FPCCR_ASPEN_MASK : Nat := 0x80000000

def R_V7M_CONTROL_FPCA_MASK : Nat := 0x4

def R_V7M_CONTROL_SFPA_MASK : Nat := 0x8

def R_V7M_CONTROL_SFPA_SHIFT : Nat := 3

def FPCR_NZCV_MASK : Nat := 0xf0000000

/-- CPU-state fields touched by the sysreg framework.  `xregs_fpscr` is the
backing store `vfp.xregs[ARM_VFP_FPSCR]`; for this model it is identified
with the architectural FPSCR accessed by the get/set helpers (the split
between cached and helper-assembled FPSCR bits is below the level these
claims concern). -/
inductive CpuField where
  | fpccr_ns
  | control_s
  | fpdscr_ns
  | xregs_fpscr
deriving DecidableEq, Repr

/-- Emitted micro-ops.  Temps are numbered; `brEq t c l` is
`tcg_gen_brcondi_i32(TCG_COND_EQ, temp t, c, label l)`, `storeSink` /
`loadSink` are the `storefn` / `loadfn` value sink and source callbacks,
`preserveFPState` the `v7m_preserve_fp_state` helper call, `lookupTB` the
end-the-block `gen_lookup_tb`. -/
inductive MOp where
  | loadField (t : Nat) (f : CpuField)
  | storeField (f : CpuField) (t : Nat)
  | getFpscr (t : Nat)
  | setFpscr (t : Nat)
  | movi (t c : Nat)
  | andi (t s c : Nat)
  | xori (t s c : Nat)
  | orr (t s1 s2 : Nat)
  | shri (t s c : Nat)
  | shli (t s c : Nat)
  | deposit (t s1 s2 pos len : Nat)
  | movcondEq (t c1 c2 x y : Nat)
  | brEq (t c l : Nat)
  | brNe (t c l : Nat)
  | br (l : Nat)
  | label (l : Nat)
  | storeSink (t : Nat)
  | loadSink (t : Nat)
  | preserveFPState
  | lookupTB
deriving DecidableEq, Repr

/-- Machine state seen by the emitted code: the cpu fields, the value
delivered to the sink (`none` until a `storeSink` runs), the value the
source abstraction provides (`src`), whether the lazy-preservation helper
ran, whether the block was force-ended, and the temporary file. -/
structure MState where
  fpccr_ns : Nat
  control_s : Nat
  fpdscr_ns : Nat
  fpscr : Nat
  sink : Option Nat
  src : Nat
  preserved : Bool
  tbEnded : Bool
  temps : Nat → Nat

def mset (e : Nat → Nat) (i v : Nat) : Nat → Nat :=
  fun j => if j = i then v else e j

def readField (st : MState) : CpuField → Nat
  | .fpccr_ns => st.fpccr_ns
  | .control_s => st.control_s
  | .fpdscr_ns => st.fpdscr_ns
  | .xregs_fpscr => st.fpscr

def writeField (st : MState) : CpuField → Nat → MState
  | .fpccr_ns, v => { st with fpccr_ns := v }
  | .control_s, v => { st with control_s := v }
  | .fpdscr_ns, v => { st with fpdscr_ns := v }
  | .xregs_fpscr, v => { st with fpscr := v }

/-- `tcg_gen_deposit_i32`: replace `len` bits of `dst` at `pos` with the low
`len` bits of `src`. -/
def deposit32 (dst src pos len : Nat) : Nat :=
  let mask := (2 ^ len - 1) <<< pos
  (dst &&& (0xffffffff ^^^ mask)) ||| ((src <<< pos) &&& mask)

/-- Effect of one non-control-flow micro-op. -/
def mstep (st : MState) : MOp → MState
  | .loadField t f => { st with temps := mset st.temps t (readField st f) }
  | .storeField f t => writeField st f (st.temps t)
  | .getFpscr t => { st with temps := mset st.temps t st.fpscr }
  | .setFpscr t => { st with fpscr := st.temps t }
  | .movi t c => { st with temps := mset st.temps t c }
  | .andi t s c => { st with temps := mset st.temps t (st.temps s &&& c) }
  | .xori t s c => { st with temps := mset st.temps t (st.temps s ^^^ c) }
  | .orr t s1 s2 =>
    { st with temps := mset st.temps t (st.temps s1 ||| st.temps s2) }
  | .shri t s c => { st with temps := mset st.temps t (st.temps s >>> c) }
  | .shli t s c =>
    { st with temps := mset st.temps t ((st.temps s <<< c) % 2 ^ 32) }
  | .deposit t s1 s2 pos len =>
    let v := deposit32 (st.temps s1) (st.temps s2) pos len
    { st with temps := mset st.temps t v }
  | .movcondEq t c1 c2 x y =>
    let v := if st.temps c1 = st.temps c2 then st.temps x else st.temps y
    { st with temps := mset st.temps t v }
  | .storeSink t => { st with sink := some (st.temps t) }
  | .loadSink t => { st with temps := mset st.temps t st.src }
  | .preserveFPState => { st with preserved := true }
  | .lookupTB => { st with tbEnded := true }
  | .brEq _ _ _ => st
  | .brNe _ _ _ => st
  | .br _ => st
  | .label _ => st

/-- Drop ops up to and including `label l` (labels are only branched to
forwards, matching the generators). -/
def skipToLabel (l : Nat) : List MOp → List MOp
  | [] => []
  | .label l' :: rest => if l' = l then rest else skipToLabel l rest
  | _ :: rest => skipToLabel l rest

theorem skipToLabel_length_le (l : Nat) :
    ∀ ops : List MOp, (skipToLabel l ops).length ≤ ops.length := by
  intro ops
  induction ops with
  | nil => simp [skipToLabel]
  | cons op rest ih =>
    cases op <;> simp only [skipToLabel, List.length_cons] <;> try omega
    split
    · omega
    · omega

/-- Run an emitted op list.  With `sinkFaults = true` the `storeSink` op
models a faulting memory sink: execution aborts there, the store (and
everything after it) does not happen. -/
def interp (sinkFaults : Bool) : List MOp → MState → MState
  | [], st => st
  | .brEq t c l :: rest, st =>
    if st.temps t = c then interp sinkFaults (skipToLabel l rest) st
    else interp sinkFaults rest st
  | .brNe t c l :: rest, st =>
    if st.temps t ≠ c then interp sinkFaults (skipToLabel l rest) st
    else interp sinkFaults rest st
  | .br l :: rest, st => interp sinkFaults (skipToLabel l rest) st
  | .storeSink t :: rest, st =>
    if sinkFaults then st
    else interp sinkFaults rest { st with sink := some (st.temps t) }
  | op :: rest, st => interp sinkFaults rest (mstep st op)
termination_by ops _ => ops.length
decreasing_by
  all_goals simp
  all_goals have := skipToLabel_length_le l rest
  all_goals omega

/-! ### The emitted op sequences

Temp numbering: 0 = `aspen`, 1 = `fpca` (gen_branch_fpInactive), 2 = `tmp`,
3 = `sfpa`, 4 = `fpscr`, 5 = `control`, 6 = `fpdscr`, 7 = `zero`.
Labels: 0 = `lab_active`, 1 = `lab_end`. -/

/-- `gen_branch_fpInactive` (lines 701-730): computes
`(control & FPCA) | ((fpccr_ns & ASPEN) ^ ASPEN)` — zero exactly when
`fpInactive = (FPCCR_NS.ASPEN == 1 && CONTROL.FPCA == 0)` — and branches on
it with the inverted condition: `condNe = true` branches to `l` if
inactive, `condNe = false` branches to `l` if active. -/
def gen_branch_fpInactive_ops (condNe : Bool) (l : Nat) : List MOp :=
  [ .loadField 0 .fpccr_ns,
    .loadField 1 .control_s,
    .andi 0 0 R_V7M_FPCCR_ASPEN_MASK,
    .xori 0 0 R_V7M_FPCCR_ASPEN_MASK,
    .andi 1 1 R_V7M_CONTROL_FPCA_MASK,
    .orr 1 1 0,
    if condNe then .brEq 1 0 l else .brNe 1 0 l ]

/-- `gen_preserve_fp_state` (lines 90-112): emits the
`v7m_preserve_fp_state` helper call only when `s->v7m_lspact`. -/
def gen_preserve_fp_state_ops (lspact : Bool) : List MOp :=
  if lspact then [.preserveFPState] else []

/-- The `ARM_VFP_FPCXT_S` arm of the `switch` in `gen_M_fp_sysreg_write`
(lines 780-799), which the `ARM_VFP_FPCXT_NS` arm falls through to: set
FPSCR bits [27:0] and CONTROL.SFPA from bit [31] of the loaded value. -/
def gen_M_fp_sysreg_write_fpcxt_body : List MOp :=
  [ .loadSink 2,
    .shri 3 2 31,
    .loadField 5 .control_s,
    .deposit 5 5 3 R_V7M_CONTROL_SFPA_SHIFT 1,
    .storeField .control_s 5,
    .andi 2 2 0x0fffffff,
    .setFpscr 2 ]

/-- Op sequence emitted by `gen_M_fp_sysreg_write` (lines 732-807) once its
checks pass.  For `ARM_VFP_FPCXT_NS` the write is a no-op when fpInactive:
branch to `lab_end` (label 1); otherwise `PreserveFPState()` then the
`FPCXT_S` body by fallthrough. -/
def gen_M_fp_sysreg_write_ops (lspact : Bool) (regno : Nat) : List MOp :=
  if regno = ARM_VFP_FPSCR then
    [ .loadSink 2, .setFpscr 2, .lookupTB ]
  else if regno = ARM_VFP_FPSCR_NZCVQC then
    [ .loadSink 2, .andi 2 2 FPCR_NZCV_MASK, .loadField 4 .xregs_fpscr,
      .andi 4 4 0x0fffffff, .orr 4 4 2, .storeField .xregs_fpscr 4 ]
  else if regno = ARM_VFP_FPCXT_NS then
    gen_branch_fpInactive_ops true 1 ++ gen_preserve_fp_state_ops lspact ++
      gen_M_fp_sysreg_write_fpcxt_body ++ [ .label 1 ]
  else if regno = ARM_VFP_FPCXT_S then
    gen_M_fp_sysreg_write_fpcxt_body
  else []

/-- Op sequence emitted by `gen_M_fp_sysreg_read` (lines 809-930) once its
checks pass.  `ARM_VFP_FPCXT_S`: assemble FPSCR[27:0] | SFPA<<31, store to
the sink, then clear CONTROL.SFPA and reload FPSCR from FPDSCR_NS and end
the block.  `ARM_VFP_FPCXT_NS`: if fpInactive, the read delivers FPDSCR_NS
and jumps to `lab_end`; otherwise `PreserveFPState()`, the same assembled
value is stored, and FPSCR is reloaded from FPDSCR_NS if SFPA was clear;
either way the block is ended. -/
def gen_M_fp_sysreg_read_ops (lspact : Bool) (regno : Nat) : List MOp :=
  if regno = ARM_VFP_FPSCR then
    [ .getFpscr 2, .storeSink 2 ]
  else if regno = ARM_VFP_FPSCR_NZCVQC ∨ regno = QEMU_VFP_FPSCR_NZCV then
    [ .loadField 2 .xregs_fpscr, .andi 2 2 FPCR_NZCV_MASK, .storeSink 2 ]
  else if regno = ARM_VFP_FPCXT_S then
    [ .getFpscr 2,
      .andi 2 2 0x0fffffff,
      .loadField 5 .control_s,
      .andi 3 5 R_V7M_CONTROL_SFPA_MASK,
      .shli 3 3 28,
      .orr 2 2 3,
      .storeSink 2,
      .andi 5 5 0xfffffff7,
      .storeField .control_s 5,
      .loadField 6 .fpdscr_ns,
      .setFpscr 6,
      .lookupTB ]
  else if regno = ARM_VFP_FPCXT_NS then
    gen_branch_fpInactive_ops false 0 ++
      [ .loadField 2 .fpdscr_ns, .storeSink 2, .br 1 ] ++
      [ .label 0 ] ++ gen_preserve_fp_state_ops lspact ++
      [ .getFpscr 4,
        .andi 2 4 0x0fffffff,
        .loadField 5 .control_s,
        .andi 3 5 R_V7M_CONTROL_SFPA_MASK,
        .shli 3 3 28,
        .orr 2 2 3,
        .storeSink 2,
        .loadField 6 .fpdscr_ns,
        .movi 7 0,
        .movcondEq 4 3 7 6 4,
        .setFpscr 4 ] ++
      [ .label 1 ] ++ [ .lookupTB ]
  else []

/-- `FPSysRegCheckResult` (lines 655-659). -/
inductive FPSysRegCheckResult where
  | failed
  | done
  | cont
deriving DecidableEq, Repr

/-- `fp_sysreg_checks` (lines 661-699): feature/legality gating, and the
ordinary `vfp_access_check` for every register except `ARM_VFP_FPCXT_NS`
(which gets only its own fpInactive handling).  `vfp_access_ok` abstracts
the outcome of `vfp_access_check`: `false` means it emitted an exception
and the instruction is complete (`FPSysRegCheckDone`). -/
def fp_sysreg_checks (fpsp_v2 v8_1m v8m_secure vfp_access_ok : Bool)
    (regno : Nat) : FPSysRegCheckResult :=
  if ¬fpsp_v2 then .failed
  else
    let legal : Bool :=
      if regno = ARM_VFP_FPSCR ∨ regno = QEMU_VFP_FPSCR_NZCV then true
      else if regno = ARM_VFP_FPSCR_NZCVQC then v8_1m
      else if regno = ARM_VFP_FPCXT_S ∨ regno = ARM_VFP_FPCXT_NS then
        v8_1m && v8m_secure
      else false
    if ¬legal then .failed
    else if regno ≠ ARM_VFP_FPCXT_NS ∧ ¬vfp_access_ok then .done
    else .cont

/-- `gen_M_fp_sysreg_read` as a handler: `none` = returns false (decoder
falls back), `some ops` = returns true having emitted `ops`. -/
def gen_M_fp_sysreg_read_handler (fpsp_v2 v8_1m v8m_secure vfp_access_ok
    lspact : Bool) (regno : Nat) : Option (List MOp) :=
  match fp_sysreg_checks fpsp_v2 v8_1m v8m_secure vfp_access_ok regno with
  | .failed => none
  | .done => some []
  | .cont => some (gen_M_fp_sysreg_read_ops lspact regno)

/-- `gen_M_fp_sysreg_write` as a handler. -/
def gen_M_fp_sysreg_write_handler (fpsp_v2 v8_1m v8m_secure vfp_access_ok
    lspact : Bool) (regno : Nat) : Option (List MOp) :=
  match fp_sysreg_checks fpsp_v2 v8_1m v8m_secure vfp_access_ok regno with
  | .failed => none
  | .done => some []
  | .cont => some (gen_M_fp_sysreg_write_ops lspact regno)

/-- The runtime fpInactive condition, exactly as the emitted comparison
value of `gen_branch_fpInactive` computes it:
`(CONTROL.FPCA | ~FPCCR_NS.ASPEN-bit) == 0`, i.e. `ASPEN == 1 ∧ FPCA == 0`. -/
def vfp_fpInactive (st : MState) : Prop :=
  st.control_s &&& R_V7M_CONTROL_FPCA_MASK |||
    ((st.fpccr_ns &&& R_V7M_FPCCR_ASPEN_MASK) ^^^ R_V7M_FPCCR_ASPEN_MASK) = 0

/-- C5: accessing FPCXT_NS while the FP context is inactive
(`FPCCR_NS.ASPEN == 1` and `CONTROL.FPCA == 0`): both handlers report the
instruction handled; the emitted read delivers FPDSCR_NS to the value sink,
mutating no cpu field (it only ends the block, as every FPCXT_NS access
does); and the emitted write changes no state at all. -/
theorem c5_fpcxt_ns_inactive (ok lspact : Bool) (st : MState)
    (hInactive : vfp_fpInactive st) :
    gen_M_fp_sysreg_read_handler true true true ok lspact ARM_VFP_FPCXT_NS =
      some (gen_M_fp_sysreg_read_ops lspact ARM_VFP_FPCXT_NS) ∧
    gen_M_fp_sysreg_write_handler true true true ok lspact ARM_VFP_FPCXT_NS =
      some (gen_M_fp_sysreg_write_ops lspact ARM_VFP_FPCXT_NS) ∧
    ((interp false (gen_M_fp_sysreg_read_ops lspact ARM_VFP_FPCXT_NS)
        st).sink = some st.fpdscr_ns ∧
     (interp false (gen_M_fp_sysreg_read_ops lspact ARM_VFP_FPCXT_NS)
        st).control_s = st.control_s ∧
     (interp false (gen_M_fp_sysreg_read_ops lspact ARM_VFP_FPCXT_NS)
        st).fpscr = st.fpscr ∧
     (interp false (gen_M_fp_sysreg_read_ops lspact ARM_VFP_FPCXT_NS)
        st).fpccr_ns = st.fpccr_ns ∧
     (interp false (gen_M_fp_sysreg_read_ops lspact ARM_VFP_FPCXT_NS)
        st).fpdscr_ns = st.fpdscr_ns ∧
     (interp false (gen_M_fp_sysreg_read_ops lspact ARM_VFP_FPCXT_NS)
        st).preserved = st.preserved ∧
     (interp false (gen_M_fp_sysreg_read_ops lspact ARM_VFP_FPCXT_NS)
        st).tbEnded = true) ∧
    ((interp false (gen_M_fp_sysreg_write_ops lspact ARM_VFP_FPCXT_NS)
        st).sink = st.sink ∧
     (interp false (gen_M_fp_sysreg_write_ops lspact ARM_VFP_FPCXT_NS)
        st).control_s = st.control_s ∧
     (interp false (gen_M_fp_sysreg_write_ops lspact ARM_VFP_FPCXT_NS)
        st).fpscr = st.fpscr ∧
     (interp false (gen_M_fp_sysreg_write_ops lspact ARM_VFP_FPCXT_NS)
        st).fpccr_ns = st.fpccr_ns ∧
     (interp false (gen_M_fp_sysreg_write_ops lspact ARM_VFP_FPCXT_NS)
        st).fpdscr_ns = st.fpdscr_ns ∧
     (interp false (gen_M_fp_sysreg_write_ops lspact ARM_VFP_FPCXT_NS)
        st).preserved = st.preserved ∧
     (interp false (gen_M_fp_sysreg_write_ops lspact ARM_VFP_FPCXT_NS)
        st).tbEnded = st.tbEnded) := by
  unfold vfp_fpInactive at hInactive
  simp only [R_V7M_CONTROL_FPCA_MASK, R_V7M_FPCCR_ASPEN_MASK] at hInactive
  cases lspact <;> cases ok <;>
    simp [gen_M_fp_sysreg_read_handler, gen_M_fp_sysreg_write_handler,
      fp_sysreg_checks, gen_M_fp_sysreg_read_ops, gen_M_fp_sysreg_write_ops,
      gen_branch_fpInactive_ops, gen_preserve_fp_state_ops,
      gen_M_fp_sysreg_write_fpcxt_body, interp, skipToLabel, mstep, mset,
      readField, writeField, deposit32, ARM_VFP_FPSCR, ARM_VFP_FPSCR_NZCVQC,
      QEMU_VFP_FPSCR_NZCV, ARM_VFP_FPCXT_S, ARM_VFP_FPCXT_NS,
      R_V7M_FPCCR_ASPEN_MASK, R_V7M_CONTROL_FPCA_MASK,
      R_V7M_CONTROL_SFPA_MASK, R_V7M_CONTROL_SFPA_SHIFT, FPCR_NZCV_MASK,
      hInactive]

/-- Witness for C5: a concrete inactive state (ASPEN set, FPCA clear,
FPDSCR_NS = 42, FPSCR = 7): the read delivers 42 to the sink and leaves
FPSCR at 7; the write leaves the sink empty and FPSCR at 7. -/
theorem c5_fpcxt_ns_inactive_witness :
    vfp_fpInactive
      ⟨0x80000000, 0, 42, 7, none, 99, false, false, fun _ => 0⟩ ∧
    (interp false (gen_M_fp_sysreg_read_ops true ARM_VFP_FPCXT_NS)
        ⟨0x80000000, 0, 42, 7, none, 99, false, false, fun _ => 0⟩).sink =
      some 42 ∧
    (interp false (gen_M_fp_sysreg_read_ops true ARM_VFP_FPCXT_NS)
        ⟨0x80000000, 0, 42, 7, none, 99, false, false, fun _ => 0⟩).fpscr =
      7 ∧
    (interp false (gen_M_fp_sysreg_write_ops true ARM_VFP_FPCXT_NS)
        ⟨0x80000000, 0, 42, 7, none, 99, false, false, fun _ => 0⟩).sink =
      none ∧
    (interp false (gen_M_fp_sysreg_write_ops true ARM_VFP_FPCXT_NS)
        ⟨0x80000000, 0, 42, 7, none, 99, false, false, fun _ => 0⟩).fpscr =
      7 := by
  have h : vfp_fpInactive
      ⟨0x80000000, 0, 42, 7, none, 99, false, false, fun _ => 0⟩ := by
    unfold vfp_fpInactive
    decide
  have hc := c5_fpcxt_ns_inactive true true
    ⟨0x80000000, 0, 42, 7, none, 99, false, false, fun _ => 0⟩ h
  exact ⟨h, hc.2.2.1.1, hc.2.2.1.2.2.1, hc.2.2.2.1, hc.2.2.2.2.2.1⟩

/-- Is this op the store of the read value to the value sink? -/
def MOp.isStoreSink : MOp → Bool
  | .storeSink _ => true
  | _ => false

/-- Is this op one of the state-resetting side effects of an FPCXT read:
writing back CONTROL (clearing SFPA) or reloading FPSCR? -/
def MOp.isStateReset : MOp → Bool
  | .storeField .control_s _ => true
  | .setFpscr _ => true
  | _ => false

set_option maxHeartbeats 1000000 in
/-- C6: in the op sequences emitted for FPCXT_S reads and FPCXT_NS reads,
every state-resetting op (CONTROL.SFPA clear, FPSCR reload) comes strictly
after a store to the value sink; consequently, if the sink is a memory
store that faults, no state reset happens at all: under the faulting-sink
interpretation CONTROL, FPSCR and the sink are left exactly as they were. -/
theorem c6_read_sink_before_reset (lspact : Bool) (st : MState) :
    (∀ j : Fin (gen_M_fp_sysreg_read_ops lspact ARM_VFP_FPCXT_S).length,
      ((gen_M_fp_sysreg_read_ops lspact ARM_VFP_FPCXT_S).get j).isStateReset
          = true →
      ∃ i : Fin (gen_M_fp_sysreg_read_ops lspact ARM_VFP_FPCXT_S).length,
        i.val < j.val ∧
        ((gen_M_fp_sysreg_read_ops lspact ARM_VFP_FPCXT_S).get i).isStoreSink
          = true) ∧
    (∀ j : Fin (gen_M_fp_sysreg_read_ops lspact ARM_VFP_FPCXT_NS).length,
      ((gen_M_fp_sysreg_read_ops lspact ARM_VFP_FPCXT_NS).get j).isStateReset
          = true →
      ∃ i : Fin (gen_M_fp_sysreg_read_ops lspact ARM_VFP_FPCXT_NS).length,
        i.val < j.val ∧
        ((gen_M_fp_sysreg_read_ops lspact ARM_VFP_FPCXT_NS).get i).isStoreSink
          = true) ∧
    (interp true (gen_M_fp_sysreg_read_ops lspact ARM_VFP_FPCXT_S)
        st).control_s = st.control_s ∧
    (interp true (gen_M_fp_sysreg_read_ops lspact ARM_VFP_FPCXT_S)
        st).fpscr = st.fpscr ∧
    (interp true (gen_M_fp_sysreg_read_ops lspact ARM_VFP_FPCXT_S)
        st).sink = st.sink ∧
    (interp true (gen_M_fp_sysreg_read_ops lspact ARM_VFP_FPCXT_NS)
        st).control_s = st.control_s ∧
    (interp true (gen_M_fp_sysreg_read_ops lspact ARM_VFP_FPCXT_NS)
        st).fpscr = st.fpscr ∧
    (interp true (gen_M_fp_sysreg_read_ops lspact ARM_VFP_FPCXT_NS)
        st).sink = st.sink := by
  refine ⟨by cases lspact <;> decide, by cases lspact <;> decide, ?_⟩
  by_cases hc : st.control_s &&& 4 |||
      (st.fpccr_ns &&& 2147483648 ^^^ 2147483648) = 0 <;>
    cases lspact <;>
      simp [gen_M_fp_sysreg_read_ops, gen_branch_fpInactive_ops,
        gen_preserve_fp_state_ops, interp, skipToLabel, mstep, mset,
        readField, writeField, ARM_VFP_FPSCR, ARM_VFP_FPSCR_NZCVQC,
        QEMU_VFP_FPSCR_NZCV, ARM_VFP_FPCXT_S, ARM_VFP_FPCXT_NS,
        R_V7M_FPCCR_ASPEN_MASK, R_V7M_CONTROL_FPCA_MASK,
        R_V7M_CONTROL_SFPA_MASK, FPCR_NZCV_MASK, hc]

/-- Witness for C6: in the concrete FPCXT_S read sequence the CONTROL
write-back at index 8 is a state reset and a sink store exists strictly
before it; and on a concrete state a faulting sink leaves CONTROL = 5. -/
theorem c6_read_sink_before_reset_witness :
    ((gen_M_fp_sysreg_read_ops true ARM_VFP_FPCXT_S).get
        ⟨8, by decide⟩).isStateReset = true ∧
    (∃ i : Fin (gen_M_fp_sysreg_read_ops true ARM_VFP_FPCXT_S).length,
      i.val < 8 ∧
      ((gen_M_fp_sysreg_read_ops true ARM_VFP_FPCXT_S).get i).isStoreSink
        = true) ∧
    (interp true (gen_M_fp_sysreg_read_ops true ARM_VFP_FPCXT_S)
        ⟨0x80000000, 5, 42, 7, none, 99, false, false, fun _ => 0⟩).control_s
      = 5 := by
  refine ⟨by decide, ?_, ?_⟩
  · exact (c6_read_sink_before_reset true
      ⟨0x80000000, 5, 42, 7, none, 99, false, false, fun _ => 0⟩).1
      ⟨8, by decide⟩ (by decide)
  · exact (c6_read_sink_before_reset true
      ⟨0x80000000, 5, 42, 7, none, 99, false, false, fun _ => 0⟩).2.2.1

/-! ## Multi-register block transfer (trans_VLDM_VSTM_sp lines 1478-1553,
trans_VLDM_VSTM_dp lines 1555-1644)

The decode-time gate is embedded as an `Option` (`none` = the handler
returns false before emitting anything), and the address arithmetic of the
emitted code — the optional pre-decrement, the per-iteration increments of
the load/store loop, and the analytic write-back adjustment — as 32-bit
wrap-around arithmetic on the base value. -/

/-- 32-bit wrap-around add. -/
def wadd32 (a b : Nat) : Nat := (a + b) % 2 ^ 32

/-- 32-bit negation (value of `-x` as a `uint32_t`). -/
def wneg32 (x : Nat) : Nat := (2 ^ 32 - x % 2 ^ 32) % 2 ^ 32

/-- 32-bit subtraction `a - b`, as the emitted adds compute it. -/
def wsub32 (a b : Nat) : Nat := wadd32 a (wneg32 b)

/-- Decoded `VLDM`/`VSTM` argument record (fields used by the handlers). -/
structure VLDM_VSTM_args where
  rn : Nat
  vd : Nat
  imm : Nat
  p : Bool
  w : Bool
  l : Bool
deriving DecidableEq, Repr

/-- Decode-time gate of `trans_VLDM_VSTM_sp`: the transfer count is
`n = a->imm`; reject (no emission) unless the feature is present, `n` is
non-zero, the range stays inside the bank, and write-back does not target
the program counter.  Returns the accepted count. -/
def trans_VLDM_VSTM_sp_decode (fpsp_v2 : Bool) (a : VLDM_VSTM_args) :
    Option Nat :=
  if ¬fpsp_v2 then none
  else
    let n := a.imm
    if n = 0 ∨ a.vd + n > 32 then none
    else if a.rn = 15 ∧ a.w then none
    else some n

/-- Decode-time gate of `trans_VLDM_VSTM_dp`: the transfer count is
`n = a->imm >> 1`; additionally `n > 16` and (without the D16-D31
extension, `simd_r32`) `a->vd + n > 16` are rejected. -/
def trans_VLDM_VSTM_dp_decode (fpsp_v2 simd_r32 : Bool)
    (a : VLDM_VSTM_args) : Option Nat :=
  if ¬fpsp_v2 then none
  else
    let n := a.imm >>> 1
    if n = 0 ∨ a.vd + n > 32 ∨ n > 16 then none
    else if a.rn = 15 ∧ a.w then none
    else if ¬simd_r32 ∧ a.vd + n > 16 then none
    else some n

/-- The address increments of the transfer loop: `n` iterations of
`tcg_gen_addi_i32(addr, addr, offset)`. -/
def vldm_vstm_loop_addr (n : Nat) (addr : Nat) (offset : Nat) : Nat :=
  match n with
  | 0 => addr
  | k + 1 => vldm_vstm_loop_addr k (wadd32 addr offset) offset

/-- Final base-register value stored by `trans_VLDM_VSTM_sp` when
write-back is requested (`a->w`): pre-decrement subtracts `imm << 2`
up front, the loop adds `4` per register, and for pre-decrement the
write-back then adds `-offset * n` analytically. -/
def trans_VLDM_VSTM_sp_writeback (base : Nat) (a : VLDM_VSTM_args) : Nat :=
  let n := a.imm
  let addr := base
  let addr := if a.p then wadd32 addr (wneg32 (a.imm <<< 2)) else addr
  let addr := vldm_vstm_loop_addr n addr 4
  if a.p then wadd32 addr (wneg32 (4 * n)) else addr

/-- Final base-register value stored by `trans_VLDM_VSTM_dp` when
write-back is requested: as for single precision but with element width 8;
for non-pre-decrement an odd `imm` (the FLDMX/FSTMX form) adds a final 4. -/
def trans_VLDM_VSTM_dp_writeback (base : Nat) (a : VLDM_VSTM_args) : Nat :=
  let n := a.imm >>> 1
  let addr := base
  let addr := if a.p then wadd32 addr (wneg32 (a.imm <<< 2)) else addr
  let addr := vldm_vstm_loop_addr n addr 8
  if a.p then wadd32 addr (wneg32 (8 * n))
  else if a.imm % 2 = 1 then wadd32 addr 4
  else addr

theorem vldm_vstm_loop_addr_eq (n addr offset : Nat) (h : addr < 2 ^ 32) :
    vldm_vstm_loop_addr n addr offset = (addr + offset * n) % 2 ^ 32 := by
  induction n generalizing addr with
  | zero =>
    simp only [vldm_vstm_loop_addr, Nat.mul_zero, Nat.add_zero]
    omega
  | succ k ih =>
    rw [vldm_vstm_loop_addr, ih (wadd32 addr offset) (Nat.mod_lt _ (by norm_num)),
      wadd32, Nat.mod_add_mod]
    ring_nf

/-- C7 counterexample: for the double-precision form with an odd immediate
(the FLDMX/FSTMX encoding, count `n = imm >> 1`), pre-decrement write-back
stores `base - 4*imm = base - (8*n + 4)`, not `base - 8*n`: at `imm = 3`
(count 1), `base = 1000`, decode accepts the instruction and the stored
base is 988, while `original_base - unit_size * count = 992`. -/
theorem c7_vldm_vstm_writeback_counterexample :
    trans_VLDM_VSTM_dp_decode true true
      ⟨2, 0, 3, true, true, true⟩ = some 1 ∧
    trans_VLDM_VSTM_dp_writeback 1000 ⟨2, 0, 3, true, true, true⟩ = 988 ∧
    wsub32 1000 (8 * 1) = 992 ∧ (988 : Nat) ≠ 992 := by
  refine ⟨by decide, by decide, by decide, by decide⟩

/-- C7 amended: count zero, a range past the top of the bank, and
write-back with the PC as base are all rejected at decode time with no
emission, for every base-register/write-back combination; and with
write-back and pre-decrement the final stored base equals
`original_base - 4*imm` (mod 2^32).  This is
`original_base - unit_size * count` for single precision (`count = imm`)
and for even-`imm` double precision (`count = imm/2`); the odd-`imm`
FLDMX/FSTMX double-precision form stores `unit_size * count + 4` below the
original base. -/
theorem c7_vldm_vstm_decode_and_writeback (fpsp_v2 simd_r32 : Bool)
    (base : Nat) (a : VLDM_VSTM_args) :
    (a.imm = 0 → trans_VLDM_VSTM_sp_decode fpsp_v2 a = none) ∧
    (a.imm >>> 1 = 0 → trans_VLDM_VSTM_dp_decode fpsp_v2 simd_r32 a = none) ∧
    (a.vd + a.imm > 32 → trans_VLDM_VSTM_sp_decode fpsp_v2 a = none) ∧
    (a.vd + (a.imm >>> 1) > 32 →
      trans_VLDM_VSTM_dp_decode fpsp_v2 simd_r32 a = none) ∧
    (a.rn = 15 ∧ a.w → trans_VLDM_VSTM_sp_decode fpsp_v2 a = none) ∧
    (a.rn = 15 ∧ a.w →
      trans_VLDM_VSTM_dp_decode fpsp_v2 simd_r32 a = none) ∧
    (a.p = true →
      trans_VLDM_VSTM_sp_writeback base a = wsub32 base (4 * a.imm) ∧
      trans_VLDM_VSTM_dp_writeback base a = wsub32 base (4 * a.imm)) ∧
    (a.p = true → a.imm % 2 = 0 →
      trans_VLDM_VSTM_dp_writeback base a =
        wsub32 base (8 * (a.imm >>> 1))) := by
  refine ⟨?_, ?_, ?_, ?_, ?_, ?_, ?_, ?_⟩
  · intro h
    cases fpsp_v2 <;> simp [trans_VLDM_VSTM_sp_decode, h]
  · intro h
    cases fpsp_v2 <;> simp [trans_VLDM_VSTM_dp_decode, h]
  · intro h
    cases fpsp_v2 <;> simp [trans_VLDM_VSTM_sp_decode, h]
  · intro h
    cases fpsp_v2 <;> simp [trans_VLDM_VSTM_dp_decode, h]
  · rintro ⟨h15, hw⟩
    cases fpsp_v2 <;> simp [trans_VLDM_VSTM_sp_decode, h15, hw]
  · rintro ⟨h15, hw⟩
    cases fpsp_v2 <;> simp [trans_VLDM_VSTM_dp_decode, h15, hw]
  · intro hp
    constructor
    · simp only [trans_VLDM_VSTM_sp_writeback, hp, eq_self_iff_true, if_true,
        ite_true]
      rw [vldm_vstm_loop_addr_eq _ _ _ (by simp only [wadd32]; omega)]
      simp only [wsub32, wadd32, wneg32, Nat.shiftLeft_eq]
      norm_num
      omega
    · simp only [trans_VLDM_VSTM_dp_writeback, hp, eq_self_iff_true, if_true,
        ite_true]
      rw [vldm_vstm_loop_addr_eq _ _ _ (by simp only [wadd32]; omega)]
      simp only [wsub32, wadd32, wneg32, Nat.shiftLeft_eq,
        Nat.shiftRight_eq_div_pow]
      norm_num
      omega
  · intro hp heven
    simp only [trans_VLDM_VSTM_dp_writeback, hp, eq_self_iff_true, if_true,
      ite_true]
    rw [vldm_vstm_loop_addr_eq _ _ _ (by simp only [wadd32]; omega)]
    simp only [wsub32, wadd32, wneg32, Nat.shiftLeft_eq,
      Nat.shiftRight_eq_div_pow]
    norm_num
    omega

/-- Witness for C7 (amended) at concrete inputs: count 0 is rejected; the
single-precision pre-decrement write-back at `imm = 3`, `base = 1000`
stores `1000 - 12`; the even-`imm` double-precision form at `imm = 4`
stores `1000 - 8*2`. -/
theorem c7_vldm_vstm_decode_and_writeback_witness :
    trans_VLDM_VSTM_sp_decode true ⟨2, 0, 0, true, true, true⟩ = none ∧
    trans_VLDM_VSTM_sp_writeback 1000 ⟨2, 0, 3, true, true, true⟩ =
      wsub32 1000 (4 * 3) ∧
    trans_VLDM_VSTM_dp_writeback 1000 ⟨2, 0, 4, true, true, true⟩ =
      wsub32 1000 (8 * ((4 : Nat) >>> 1)) := by
  refine ⟨?_, ?_, ?_⟩
  · exact (c7_vldm_vstm_decode_and_writeback true true 1000
      ⟨2, 0, 0, true, true, true⟩).1 rfl
  · exact ((c7_vldm_vstm_decode_and_writeback true true 1000
      ⟨2, 0, 3, true, true, true⟩).2.2.2.2.2.2.1 rfl).1
  · exact (c7_vldm_vstm_decode_and_writeback true true 1000
      ⟨2, 0, 4, true, true, true⟩).2.2.2.2.2.2.2 rfl rfl

/-! ## Argument-record immutability (gen_M_VMSR_VMRS lines 953-976,
trans_NOCP lines 4026-4058)

A whole-file scan of assignments through the argument-record pointer shows
exactly two handlers that write to their decoded argument record:
`gen_M_VMSR_VMRS` (the register-15 FPSCR-to-NZCV reinterpretation,
`a->reg = QEMU_VFP_FPSCR_NZCV`) and `trans_NOCP` (canonicalisation of the
coprocessor number, `a->cp = 10`, for cp 11 and — on v8.1M — cp 8, 9, 14
and 15).  Both record updates are embedded below. -/

/-- Decoded `VMSR`/`VMRS` argument record (fields used here). -/
structure VMSR_VMRS_args where
  rt : Nat
  l : Bool
  reg : Nat
deriving DecidableEq, Repr

/-- The argument-record update performed by `gen_M_VMSR_VMRS`: a VMRS
(`a->l`) of FPSCR targeting general register 15 rewrites the register
selector to the flags-only view; every other record is left untouched
(including the `rt == 15` combinations that make the handler return
false). -/
def gen_M_VMSR_VMRS_record (a : VMSR_VMRS_args) : VMSR_VMRS_args :=
  if a.rt = 15 then
    if a.l ∧ a.reg = ARM_VFP_FPSCR then
      { a with reg := QEMU_VFP_FPSCR_NZCV }
    else a
  else a

/-- Decoded `NOCP` argument record. -/
structure NOCP_args where
  cp : Nat
deriving DecidableEq, Repr

/-- The argument-record update performed by `trans_NOCP`:
`if (a->cp == 11) a->cp = 10;` and, on v8.1M,
`if (a->cp == 8 || a->cp == 9 || a->cp == 14 || a->cp == 15) a->cp = 10;`. -/
def trans_NOCP_record (v8_1m : Bool) (a : NOCP_args) : NOCP_args :=
  let a := if a.cp = 11 then { a with cp := 10 } else a
  if v8_1m ∧ (a.cp = 8 ∨ a.cp = 9 ∨ a.cp = 14 ∨ a.cp = 15) then
    { a with cp := 10 }
  else a

/-- C9 counterexample: `trans_NOCP` — a semantic handler that is not the
register-15 VMRS-of-FPSCR case — mutates its decoded argument record: with
`cp = 11` (even without v8.1M) the record comes back with `cp = 10`. -/
theorem c9_record_mutation_counterexample :
    trans_NOCP_record false ⟨11⟩ = ⟨10⟩ ∧
    trans_NOCP_record false ⟨11⟩ ≠ ⟨11⟩ := by
  exact ⟨rfl, by decide⟩

/-- C9 amended: the decoded argument record is left unchanged by the
handlers except in exactly two reinterpretation cases: a VMRS of FPSCR
targeting general register 15 rewrites only the register selector to the
flags-only NZCV view, and the M-profile disabled-coprocessor early check
rewrites only the coprocessor number to 10 (for cp 11, and on v8.1M also
for cp 8, 9, 14, 15). -/
theorem c9_record_mutation_amended (a : VMSR_VMRS_args) (b : NOCP_args)
    (v8_1m : Bool) :
    ((a.rt = 15 ∧ a.l = true ∧ a.reg = ARM_VFP_FPSCR) →
      gen_M_VMSR_VMRS_record a = { a with reg := QEMU_VFP_FPSCR_NZCV }) ∧
    (¬(a.rt = 15 ∧ a.l = true ∧ a.reg = ARM_VFP_FPSCR) →
      gen_M_VMSR_VMRS_record a = a) ∧
    ((b.cp = 11 ∨
        (v8_1m = true ∧ (b.cp = 8 ∨ b.cp = 9 ∨ b.cp = 14 ∨ b.cp = 15))) →
      trans_NOCP_record v8_1m b = ⟨10⟩) ∧
    (¬(b.cp = 11 ∨
        (v8_1m = true ∧ (b.cp = 8 ∨ b.cp = 9 ∨ b.cp = 14 ∨ b.cp = 15))) →
      trans_NOCP_record v8_1m b = b) := by
  refine ⟨?_, ?_, ?_, ?_⟩
  · rintro ⟨h1, h2, h3⟩
    simp [gen_M_VMSR_VMRS_record, h1, h2, h3]
  · intro h
    unfold gen_M_VMSR_VMRS_record
    split_ifs with h1 h2
    · exact absurd ⟨h1, h2.1, h2.2⟩ h
    · rfl
    · rfl
  · intro h
    obtain ⟨cp⟩ := b
    unfold trans_NOCP_record
    rcases h with h11 | ⟨hv, hcp⟩
    · subst h11
      cases v8_1m <;> simp
    · subst hv
      simp only [true_and]
      rcases hcp with h | h | h | h <;> subst h <;> simp
  · intro h
    obtain ⟨cp⟩ := b
    push_neg at h
    obtain ⟨h11, hrest⟩ := h
    unfold trans_NOCP_record
    simp only [h11, if_false]
    cases v8_1m with
    | false => simp
    | true =>
      have := hrest rfl
      simp only [true_and]
      split_ifs with hx
      · rcases hx with h | h | h | h <;> simp [h] at this
      · rfl

/-- Witness for C9 (amended) at concrete records: the register-15 VMRS of
FPSCR is rewritten to the NZCV view, an ordinary VMRS record is untouched,
`cp = 14` is canonicalised to 10 exactly on v8.1M. -/
theorem c9_record_mutation_amended_witness :
    gen_M_VMSR_VMRS_record ⟨15, true, ARM_VFP_FPSCR⟩ =
      ⟨15, true, QEMU_VFP_FPSCR_NZCV⟩ ∧
    gen_M_VMSR_VMRS_record ⟨3, true, ARM_VFP_FPSCR⟩ =
      ⟨3, true, ARM_VFP_FPSCR⟩ ∧
    trans_NOCP_record true ⟨14⟩ = ⟨10⟩ ∧
    trans_NOCP_record false ⟨14⟩ = ⟨14⟩ := by
  refine ⟨?_, ?_, ?_, ?_⟩
  · exact (c9_record_mutation_amended ⟨15, true, ARM_VFP_FPSCR⟩ ⟨14⟩
      true).1 ⟨rfl, rfl, rfl⟩
  · exact (c9_record_mutation_amended ⟨3, true, ARM_VFP_FPSCR⟩ ⟨14⟩
      true).2.1 (by decide)
  · exact (c9_record_mutation_amended ⟨3, true, ARM_VFP_FPSCR⟩ ⟨14⟩
      true).2.2.1 (Or.inr ⟨rfl, by decide⟩)
  · exact (c9_record_mutation_amended ⟨3, true, ARM_VFP_FPSCR⟩ ⟨14⟩
      false).2.2.2 (by decide)

/-! ## Non-M-profile VMSR/VMRS (trans_VMSR_VMRS lines 978-1119)

The A/R-profile path of `trans_VMSR_VMRS`: the per-register legality
switch, then `full_vfp_access_check` (abstracted as `access_ok`; `false`
means it emitted the fault and the handler returns true with nothing else
emitted), then the read or write emission.  Emission is recorded as the
list of state-modifying or potentially-trapping effects; pure loads of cpu
fields into temporaries are not state effects. -/

/-- State-modifying / trapping effects emitted by `trans_VMSR_VMRS`. -/
inductive VmsrEffect where
  | hcrTrapCheck
  | setNZCV
  | storeGpr (rt : Nat)
  | setFpscrFromGpr
  | storeXreg (reg : Nat) (enBitOnly : Bool)
  | lookupTB
deriving DecidableEq, Repr

/-- The VMRS (read) arm of `trans_VMSR_VMRS`: an EL2 trap check for the
MVFR registers at EL1, then the loaded value goes to CPSR.NZCV (rt = 15)
or to a general register. -/
def trans_VMRS_read_effects (current_el : Nat) (a : VMSR_VMRS_args) :
    List VmsrEffect :=
  (if (a.reg = ARM_VFP_MVFR0 ∨ a.reg = ARM_VFP_MVFR1 ∨
        a.reg = ARM_VFP_MVFR2) ∧ current_el = 1 then
    [VmsrEffect.hcrTrapCheck]
   else []) ++
  [if a.rt = 15 then VmsrEffect.setNZCV else VmsrEffect.storeGpr a.rt]

/-- The VMSR (write) arm of `trans_VMSR_VMRS`: writes to FPSID and the
MVFR registers are ignored (`/* Writes are ignored. */ break;`); FPSCR
goes through the set-FPSCR helper and ends the block; FPEXC keeps only the
EN bit and ends the block; FPINST/FPINST2 store the raw value. -/
def trans_VMSR_write_effects (a : VMSR_VMRS_args) : List VmsrEffect :=
  if a.reg = ARM_VFP_FPSID ∨ a.reg = ARM_VFP_MVFR0 ∨
      a.reg = ARM_VFP_MVFR1 ∨ a.reg = ARM_VFP_MVFR2 then []
  else if a.reg = ARM_VFP_FPSCR then
    [VmsrEffect.setFpscrFromGpr, VmsrEffect.lookupTB]
  else if a.reg = ARM_VFP_FPEXC then
    [VmsrEffect.storeXreg ARM_VFP_FPEXC true, VmsrEffect.lookupTB]
  else
    [VmsrEffect.storeXreg a.reg false]

/-- Post-legality continuation of `trans_VMSR_VMRS`: the access check
(failure emits the fault and reports handled with nothing further), then
the read or write emission. -/
def trans_VMSR_VMRS_nonM_emit (current_el : Nat) (access_ok : Bool)
    (a : VMSR_VMRS_args) : Option (List VmsrEffect) :=
  if ¬access_ok then some []
  else if a.l then some (trans_VMRS_read_effects current_el a)
  else some (trans_VMSR_write_effects a)

/-- The non-M-profile path of `trans_VMSR_VMRS`: feature gate and the
per-register legality switch of lines 992-1033, then the emission. -/
def trans_VMSR_VMRS_nonM (fpsp_v2 fpsp_v3 mvfr v8 is_user : Bool)
    (current_el : Nat) (access_ok : Bool) (a : VMSR_VMRS_args) :
    Option (List VmsrEffect) :=
  if ¬fpsp_v2 then none
  else if a.reg = ARM_VFP_FPSID then
    if is_user ∧ fpsp_v3 then none
    else trans_VMSR_VMRS_nonM_emit current_el access_ok a
  else if a.reg = ARM_VFP_MVFR0 ∨ a.reg = ARM_VFP_MVFR1 then
    if is_user ∨ ¬mvfr then none
    else trans_VMSR_VMRS_nonM_emit current_el access_ok a
  else if a.reg = ARM_VFP_MVFR2 then
    if is_user ∨ ¬v8 then none
    else trans_VMSR_VMRS_nonM_emit current_el access_ok a
  else if a.reg = ARM_VFP_FPSCR then
    trans_VMSR_VMRS_nonM_emit current_el access_ok a
  else if a.reg = ARM_VFP_FPEXC then
    if is_user then none
    else trans_VMSR_VMRS_nonM_emit current_el access_ok a
  else if a.reg = ARM_VFP_FPINST ∨ a.reg = ARM_VFP_FPINST2 then
    if is_user ∨ fpsp_v3 then none
    else trans_VMSR_VMRS_nonM_emit current_el access_ok a
  else none

/-- C10: on non-M-profile targets, a VMSR write to FPSID, MVFR0, MVFR1 or
MVFR2 that passes its legality and access checks is reported handled while
emitting no state-modifying IR at all (`some []`). -/
theorem c10_vmsr_id_reg_writes_ignored (fpsp_v3 mvfr v8 is_user : Bool)
    (current_el rt : Nat) :
    (¬(is_user = true ∧ fpsp_v3 = true) →
      trans_VMSR_VMRS_nonM true fpsp_v3 mvfr v8 is_user current_el true
        ⟨rt, false, ARM_VFP_FPSID⟩ = some []) ∧
    (¬(is_user = true ∨ ¬mvfr = true) →
      trans_VMSR_VMRS_nonM true fpsp_v3 mvfr v8 is_user current_el true
        ⟨rt, false, ARM_VFP_MVFR0⟩ = some [] ∧
      trans_VMSR_VMRS_nonM true fpsp_v3 mvfr v8 is_user current_el true
        ⟨rt, false, ARM_VFP_MVFR1⟩ = some []) ∧
    (¬(is_user = true ∨ ¬v8 = true) →
      trans_VMSR_VMRS_nonM true fpsp_v3 mvfr v8 is_user current_el true
        ⟨rt, false, ARM_VFP_MVFR2⟩ = some []) := by
  refine ⟨?_, ?_, ?_⟩ <;> intro h <;>
    simp [trans_VMSR_VMRS_nonM, trans_VMSR_VMRS_nonM_emit,
      trans_VMSR_write_effects, ARM_VFP_FPSID, ARM_VFP_MVFR0, ARM_VFP_MVFR1,
      ARM_VFP_MVFR2, ARM_VFP_FPSCR, ARM_VFP_FPEXC, ARM_VFP_FPINST,
      ARM_VFP_FPINST2, h] <;>
    simp_all

/-- Witness for C10 at a concrete privileged configuration (EL1, all
features present): the VMSR writes to FPSID and MVFR0 are handled with an
empty effect list. -/
theorem c10_vmsr_id_reg_writes_ignored_witness :
    trans_VMSR_VMRS_nonM true true true true false 1 true
      ⟨3, false, ARM_VFP_FPSID⟩ = some [] ∧
    trans_VMSR_VMRS_nonM true true true true false 1 true
      ⟨3, false, ARM_VFP_MVFR0⟩ = some [] := by
  refine ⟨?_, ?_⟩
  · exact (c10_vmsr_id_reg_writes_ignored true true true false 1 3).1
      (by decide)
  · exact ((c10_vmsr_id_reg_writes_ignored true true true false 1 3).2.1
      (by decide)).1
